import Mathlib

/-!
Verification of the dump command registry and request model of `below`
(`src/resctl/below/src/dump/command.rs`).

The source file consists of the `make_option!` macro — which, for each of the
seven metric domains and the output-format choice, generates an enum of field
tags together with a `FromStr` implementation that lowercases the input and
matches it against the registered pattern strings in order — plus the
`GeneralOpt` option struct and the `DumpCommand` subcommand enum.

We embed each generated enum as a Lean inductive, each macro invocation's
ordered pattern list as an association list, and `from_str` as `parseWith`
below.  Components of the pipeline that live outside this source slice
(the selection resolver, flag validation, regex compilation) are modelled
from the specification and marked as such in their doc comments.
-/

deriving instance DecidableEq for Except

namespace Below

/-- ASCII lowercasing of one character: the effect of Rust's
`str::to_lowercase` on the ASCII range (all registered names are ASCII).
Uppercase `A`–`Z` (codepoints 65–90) map to `a`–`z` (plus 32); everything
else is unchanged. -/
def lowerChar (c : Char) : Char :=
  if 65 ≤ c.toNat ∧ c.toNat ≤ 90 then Char.ofNat (c.toNat + 32) else c

/-- Rust `opt.to_lowercase()` restricted to the ASCII range: lowercase every
character. -/
def lowerString (s : String) : String := ⟨s.data.map lowerChar⟩

/-- First-match-wins scan of the match arms: Rust's `match` over the ordered
pattern list generated by `make_option!`. -/
def matchFirst {α : Type} : List (String × α) → String → Option α
  | [], _ => none
  | (p, a) :: rest, s => if s = p then some a else matchFirst rest s

/-- The `from_str` body generated by `make_option!`: lowercase the input,
match it against the arms in declaration order, and on fallthrough
`bail!("Fail to parse {}", opt)`. -/
def parseWith {α : Type} (reg : List (String × α)) (opt : String) :
    Except String α :=
  match matchFirst reg (lowerString opt) with
  | some a => Except.ok a
  | none => Except.error ("Fail to parse " ++ opt)

/-- Tags of `SysField`, one per entry of the `make_option!(SysField ...)` block in command.rs. -/
inductive SysField where
  | Timestamp
  | Datetime
  | Stat
  | Cpu
  | Mem
  | Vm
  | Hostname
  | TotalInterruptCt
  | ContextSwitches
  | BootTimeEpochSecs
  | TotalProcs
  | RunningProcs
  | BlockedProcs
  | CpuUsagePct
  | CpuUserPct
  | CpuIdlePct
  | CpuSystemPct
  | CpuNicePct
  | CpuIowaitPct
  | CpuIrq
  | CpuSoftIrq
  | CpuStolen
  | CpuGuest
  | CpuGuestNice
  | MemTotal
  | MemFree
  | MemAvailable
  | MemBuffers
  | MemCached
  | MemSwapCached
  | MemActive
  | MemInactive
  | MemAnon
  | MemFile
  | MemUnevictable
  | MemMlocked
  | MemSwapTotal
  | MemSwapFree
  | MemDirty
  | MemWriteback
  | MemAnonPages
  | MemMapped
  | MemShmem
  | MemKreclaimable
  | MemSlab
  | MemSlabReclaimable
  | MemSlabUnreclaimable
  | MemKernelStack
  | MemPageTables
  | MemAnonHugePages
  | MemShmemHugePages
  | MemFileHugePages
  | MemTotalHugePages
  | MemFreeHugePages
  | MemHugePageSize
  | MemCmaTotal
  | MemCmaFree
  | MemVmallocTotal
  | MemVmallocUsed
  | MemVmallocChunk
  | MemDirectMap4k
  | MemDirectMap2m
  | MemDirectMap1g
  | VmPgpgin
  | VmPgpgout
  | VmPswpin
  | VmPswpout
  | VmPstealKswapd
  | VmPstealDirect
  | VmPscanKswapd
  | VmPscanDirect
  | VmOomKill
deriving DecidableEq

/-- The ordered pattern→tag arms of `SysField::from_str`, exactly as written in the source. -/
def SysField.registry : List (String × SysField) := [
  ("timestamp", SysField.Timestamp),
  ("datetime", SysField.Datetime),
  ("stat", SysField.Stat),
  ("cpu", SysField.Cpu),
  ("mem", SysField.Mem),
  ("vm", SysField.Vm),
  ("hostname", SysField.Hostname),
  ("total_interrupt_ct", SysField.TotalInterruptCt),
  ("context_switches", SysField.ContextSwitches),
  ("boot_time_epoch_secs", SysField.BootTimeEpochSecs),
  ("total_procs", SysField.TotalProcs),
  ("running_procs", SysField.RunningProcs),
  ("blocked_procs", SysField.BlockedProcs),
  ("cpu_usage", SysField.CpuUsagePct),
  ("cpu_user", SysField.CpuUserPct),
  ("cpu_idle", SysField.CpuIdlePct),
  ("cpu_system", SysField.CpuSystemPct),
  ("cpu_nice", SysField.CpuNicePct),
  ("cpu_iowait", SysField.CpuIowaitPct),
  ("cpu_irq", SysField.CpuIrq),
  ("cpu_softirq", SysField.CpuSoftIrq),
  ("cpu_stolen", SysField.CpuStolen),
  ("cpu_guest", SysField.CpuGuest),
  ("cpu_guest_nice", SysField.CpuGuestNice),
  ("mem_total", SysField.MemTotal),
  ("mem_free", SysField.MemFree),
  ("mem_available", SysField.MemAvailable),
  ("mem_buffers", SysField.MemBuffers),
  ("mem_cached", SysField.MemCached),
  ("mem_swap_cached", SysField.MemSwapCached),
  ("mem_active", SysField.MemActive),
  ("mem_inactive", SysField.MemInactive),
  ("mem_anon", SysField.MemAnon),
  ("mem_file", SysField.MemFile),
  ("mem_unevictable", SysField.MemUnevictable),
  ("mem_mlocked", SysField.MemMlocked),
  ("mem_swap_total", SysField.MemSwapTotal),
  ("mem_swap_free", SysField.MemSwapFree),
  ("mem_dirty", SysField.MemDirty),
  ("mem_writeback", SysField.MemWriteback),
  ("mem_anon_pages", SysField.MemAnonPages),
  ("mem_mapped", SysField.MemMapped),
  ("mem_shmem", SysField.MemShmem),
  ("mem_kreclaimable", SysField.MemKreclaimable),
  ("mem_slab", SysField.MemSlab),
  ("mem_slab_reclaimable", SysField.MemSlabReclaimable),
  ("mem_slab_unreclaimable", SysField.MemSlabUnreclaimable),
  ("mem_kernel_stack", SysField.MemKernelStack),
  ("mem_page_tables", SysField.MemPageTables),
  ("mem_anon_huge_pages", SysField.MemAnonHugePages),
  ("mem_shmem_huge_pages", SysField.MemShmemHugePages),
  ("mem_file_huge_pages", SysField.MemFileHugePages),
  ("mem_total_huge_pages", SysField.MemTotalHugePages),
  ("mem_free_huge_pages", SysField.MemFreeHugePages),
  ("mem_huge_page_size", SysField.MemHugePageSize),
  ("mem_cma_total", SysField.MemCmaTotal),
  ("mem_cma_free", SysField.MemCmaFree),
  ("mem_vmalloc_total", SysField.MemVmallocTotal),
  ("mem_vmalloc_used", SysField.MemVmallocUsed),
  ("mem_vmalloc_chunk", SysField.MemVmallocChunk),
  ("mem_direct_map_4k", SysField.MemDirectMap4k),
  ("mem_direct_map_2m", SysField.MemDirectMap2m),
  ("mem_direct_map_1g", SysField.MemDirectMap1g),
  ("vm_pgpgin", SysField.VmPgpgin),
  ("vm_pgpgout", SysField.VmPgpgout),
  ("vm_pswpin", SysField.VmPswpin),
  ("vm_pswpout", SysField.VmPswpout),
  ("vm_psteal_kswapd", SysField.VmPstealKswapd),
  ("vm_psteal_direct", SysField.VmPstealDirect),
  ("vm_pscan_kswapd", SysField.VmPscanKswapd),
  ("vm_pscan_direct", SysField.VmPscanDirect),
  ("vm_oom_kill", SysField.VmOomKill)
]

/-- Rust `SysField::from_str` (generated by `make_option!`): lowercase the input, match the arms in order. -/
def SysField.fromStr : String → Except String SysField := parseWith SysField.registry

/-- Tags of `DiskField`, one per entry of the `make_option!(DiskField ...)` block in command.rs. -/
inductive DiskField where
  | Timestamp
  | Datetime
  | Read
  | Write
  | Discard
  | Name
  | TotalBytes
  | ReadBytes
  | WriteBytes
  | DiscardBytes
  | ReadComplated
  | ReadMerged
  | ReadSectors
  | TimeSpendRead
  | WriteCompleted
  | WriteMerged
  | WriteSectors
  | TimeSpendWrite
  | DiscardCompleted
  | DiscardMerged
  | DiscardSectors
  | TimeSpendDiscard
  | Major
  | Minor
deriving DecidableEq

/-- The ordered pattern→tag arms of `DiskField::from_str`, exactly as written in the source. -/
def DiskField.registry : List (String × DiskField) := [
  ("timestamp", DiskField.Timestamp),
  ("datetime", DiskField.Datetime),
  ("read", DiskField.Read),
  ("write", DiskField.Write),
  ("discard", DiskField.Discard),
  ("name", DiskField.Name),
  ("total", DiskField.TotalBytes),
  ("read_bytes", DiskField.ReadBytes),
  ("write_bytes", DiskField.WriteBytes),
  ("discard_bytes", DiskField.DiscardBytes),
  ("read_completed", DiskField.ReadComplated),
  ("read_merged", DiskField.ReadMerged),
  ("read_sectors", DiskField.ReadSectors),
  ("time_spend_read", DiskField.TimeSpendRead),
  ("write_completed", DiskField.WriteCompleted),
  ("write_merged", DiskField.WriteMerged),
  ("write_sectors", DiskField.WriteSectors),
  ("time_spend_write", DiskField.TimeSpendWrite),
  ("discard_completed", DiskField.DiscardCompleted),
  ("discard_merged", DiskField.DiscardMerged),
  ("discard_sectors", DiskField.DiscardSectors),
  ("time_spend_discard", DiskField.TimeSpendDiscard),
  ("major", DiskField.Major),
  ("minor", DiskField.Minor)
]

/-- Rust `DiskField::from_str` (generated by `make_option!`): lowercase the input, match the arms in order. -/
def DiskField.fromStr : String → Except String DiskField := parseWith DiskField.registry

/-- Tags of `ProcField`, one per entry of the `make_option!(ProcField ...)` block in command.rs. -/
inductive ProcField where
  | Timestamp
  | Datetime
  | Io
  | Mem
  | Cpu
  | Pid
  | Ppid
  | Comm
  | State
  | Uptime
  | Cgroup
  | CpuUserPct
  | CpuSysPct
  | CpuNumThreads
  | CpuTotalPct
  | MemRssBytes
  | MemMinor
  | MemMajor
  | IoRead
  | IoWrite
  | IoTotal
  | Cmdline
deriving DecidableEq

/-- The ordered pattern→tag arms of `ProcField::from_str`, exactly as written in the source. -/
def ProcField.registry : List (String × ProcField) := [
  ("timestamp", ProcField.Timestamp),
  ("datetime", ProcField.Datetime),
  ("io", ProcField.Io),
  ("mem", ProcField.Mem),
  ("cpu", ProcField.Cpu),
  ("pid", ProcField.Pid),
  ("ppid", ProcField.Ppid),
  ("comm", ProcField.Comm),
  ("state", ProcField.State),
  ("uptime", ProcField.Uptime),
  ("cgroup", ProcField.Cgroup),
  ("cpu_user", ProcField.CpuUserPct),
  ("cpu_sys", ProcField.CpuSysPct),
  ("cpu_threads", ProcField.CpuNumThreads),
  ("cpu_total", ProcField.CpuTotalPct),
  ("mem_rss", ProcField.MemRssBytes),
  ("mem_minorfaults", ProcField.MemMinor),
  ("mem_majorfaults", ProcField.MemMajor),
  ("io_read", ProcField.IoRead),
  ("io_write", ProcField.IoWrite),
  ("io_total", ProcField.IoTotal),
  ("cmdline", ProcField.Cmdline)
]

/-- Rust `ProcField::from_str` (generated by `make_option!`): lowercase the input, match the arms in order. -/
def ProcField.fromStr : String → Except String ProcField := parseWith ProcField.registry

/-- Tags of `CgroupField`, one per entry of the `make_option!(CgroupField ...)` block in command.rs. -/
inductive CgroupField where
  | Timestamp
  | Datetime
  | Cpu
  | Mem
  | Io
  | Pressure
  | Name
  | FullPath
  | CpuUsage
  | CpuUser
  | CpuSystem
  | CpuNrPeriods
  | CpuNrThrottled
  | CpuThrottled
  | MemTotal
  | MemSwap
  | MemAnon
  | MemFile
  | MemKernel
  | MemSlab
  | MemSock
  | MemShem
  | MemFileMapped
  | MemFileDirty
  | MemFileWriteBack
  | MemAnonThp
  | MemInactiveAnon
  | MemActiveAnon
  | MemInactiveFile
  | MemActiveFile
  | MemUnevictable
  | MemSlabReclaimable
  | MemSlabUnreclaimable
  | Pgfault
  | MemPgmajfault
  | MemWorkingsetRefault
  | MemWorkingsetActivate
  | MemWorkingsetNodereclaim
  | MemPgrefill
  | MemPgscan
  | MemPgsteal
  | MemPgactivate
  | MemPgdeactivate
  | MemPglazyfree
  | MemPglazyfreed
  | MemTHPFaultAlloc
  | MemTHPCollapseAlloc
  | MemHigh
  | IoRead
  | IoWrite
  | IoRiops
  | IoWiops
  | IoDbps
  | IoDiops
  | IoTotal
  | CpuSome
  | IoSome
  | IoFull
  | MemFull
  | MemSome
deriving DecidableEq

/-- The ordered pattern→tag arms of `CgroupField::from_str`, exactly as written in the source. -/
def CgroupField.registry : List (String × CgroupField) := [
  ("timestamp", CgroupField.Timestamp),
  ("datetime", CgroupField.Datetime),
  ("cpu", CgroupField.Cpu),
  ("mem", CgroupField.Mem),
  ("io", CgroupField.Io),
  ("pressure", CgroupField.Pressure),
  ("name", CgroupField.Name),
  ("full_path", CgroupField.FullPath),
  ("cpu_usage", CgroupField.CpuUsage),
  ("cpu_user", CgroupField.CpuUser),
  ("cpu_system", CgroupField.CpuSystem),
  ("cpu_nr_periods", CgroupField.CpuNrPeriods),
  ("cpu_nr_throttled", CgroupField.CpuNrThrottled),
  ("cpu_throttled", CgroupField.CpuThrottled),
  ("mem_total", CgroupField.MemTotal),
  ("mem_swap", CgroupField.MemSwap),
  ("mem_anon", CgroupField.MemAnon),
  ("mem_file", CgroupField.MemFile),
  ("mem_kernel", CgroupField.MemKernel),
  ("mem_slab", CgroupField.MemSlab),
  ("mem_sock", CgroupField.MemSock),
  ("mem_shmem", CgroupField.MemShem),
  ("mem_file_mapped", CgroupField.MemFileMapped),
  ("mem_file_dirty", CgroupField.MemFileDirty),
  ("mem_file_writeback", CgroupField.MemFileWriteBack),
  ("mem_anon_thp", CgroupField.MemAnonThp),
  ("mem_inactive_anon", CgroupField.MemInactiveAnon),
  ("mem_active_anon", CgroupField.MemActiveAnon),
  ("mem_inactive_file", CgroupField.MemInactiveFile),
  ("mem_active_file", CgroupField.MemActiveFile),
  ("mem_unevictable", CgroupField.MemUnevictable),
  ("mem_slab_reclaimable", CgroupField.MemSlabReclaimable),
  ("mem_slab_unreclaimable", CgroupField.MemSlabUnreclaimable),
  ("mem_pgfault", CgroupField.Pgfault),
  ("mem_pgmajfault", CgroupField.MemPgmajfault),
  ("mem_workingset_refault", CgroupField.MemWorkingsetRefault),
  ("mem_workingset_activate", CgroupField.MemWorkingsetActivate),
  ("mem_workingset_nodereclaim", CgroupField.MemWorkingsetNodereclaim),
  ("mem_pgrefill", CgroupField.MemPgrefill),
  ("mem_pgscan", CgroupField.MemPgscan),
  ("mem_pgsteal", CgroupField.MemPgsteal),
  ("mem_pgactivate", CgroupField.MemPgactivate),
  ("mem_pgdeactivate", CgroupField.MemPgdeactivate),
  ("mem_pglazyfree", CgroupField.MemPglazyfree),
  ("mem_pglazyfreed", CgroupField.MemPglazyfreed),
  ("mem_thp_fault_alloc", CgroupField.MemTHPFaultAlloc),
  ("mem_thp_collapse_alloc", CgroupField.MemTHPCollapseAlloc),
  ("mem_high", CgroupField.MemHigh),
  ("io_read", CgroupField.IoRead),
  ("io_write", CgroupField.IoWrite),
  ("io_rios", CgroupField.IoRiops),
  ("io_wios", CgroupField.IoWiops),
  ("io_dbps", CgroupField.IoDbps),
  ("io_diops", CgroupField.IoDiops),
  ("io_total", CgroupField.IoTotal),
  ("pressure_cpu_some", CgroupField.CpuSome),
  ("pressure_io_some", CgroupField.IoSome),
  ("pressure_io_full", CgroupField.IoFull),
  ("pressure_mem_full", CgroupField.MemFull),
  ("pressure_mem_some", CgroupField.MemSome)
]

/-- Rust `CgroupField::from_str` (generated by `make_option!`): lowercase the input, match the arms in order. -/
def CgroupField.fromStr : String → Except String CgroupField := parseWith CgroupField.registry

/-- Tags of `IfaceField`, one per entry of the `make_option!(IfaceField ...)` block in command.rs. -/
inductive IfaceField where
  | Timestamp
  | Datetime
  | Rate
  | Rx
  | Tx
  | Interface
  | RBps
  | TBps
  | IOBps
  | RPktps
  | TPktps
  | Collisions
  | Multicast
  | RxBytes
  | RxCompressed
  | RxCrcErr
  | RxDropped
  | RxErr
  | RxFifoErr
  | RxFrameErr
  | RxLengthErr
  | RxMissedErr
  | RxNohandler
  | RxOverErr
  | RxPckt
  | TxBytes
  | TxAbortedErr
  | TxCarrierErr
  | TxCompressed
  | TxDropped
  | TxErr
  | TxFifoErr
  | TxHeartBeatErr
  | TxPckt
  | TxWindowErr
deriving DecidableEq

/-- The ordered pattern→tag arms of `IfaceField::from_str`, exactly as written in the source. -/
def IfaceField.registry : List (String × IfaceField) := [
  ("timestamp", IfaceField.Timestamp),
  ("datetime", IfaceField.Datetime),
  ("rate", IfaceField.Rate),
  ("rx", IfaceField.Rx),
  ("tx", IfaceField.Tx),
  ("interface", IfaceField.Interface),
  ("rx_bytes_per_sec", IfaceField.RBps),
  ("tx_bytes_per_sec", IfaceField.TBps),
  ("throughput_per_sec", IfaceField.IOBps),
  ("rx_packets_per_sec", IfaceField.RPktps),
  ("tx_packets_per_sec", IfaceField.TPktps),
  ("collisions", IfaceField.Collisions),
  ("multicast", IfaceField.Multicast),
  ("rx_bytes", IfaceField.RxBytes),
  ("rx_compressed", IfaceField.RxCompressed),
  ("rx_crc_errors", IfaceField.RxCrcErr),
  ("rx_dropped", IfaceField.RxDropped),
  ("rx_errors", IfaceField.RxErr),
  ("rx_fifo_errors", IfaceField.RxFifoErr),
  ("rx_frame_errors", IfaceField.RxFrameErr),
  ("rx_length_errors", IfaceField.RxLengthErr),
  ("rx_missed_errors", IfaceField.RxMissedErr),
  ("rx_nohandler", IfaceField.RxNohandler),
  ("rx_over_errors", IfaceField.RxOverErr),
  ("rx_packets", IfaceField.RxPckt),
  ("tx_bytes", IfaceField.TxBytes),
  ("tx_aborted_errors", IfaceField.TxAbortedErr),
  ("tx_carrier_errors", IfaceField.TxCarrierErr),
  ("tx_compressed", IfaceField.TxCompressed),
  ("tx_dropped", IfaceField.TxDropped),
  ("tx_errors", IfaceField.TxErr),
  ("tx_fifo_errors", IfaceField.TxFifoErr),
  ("tx_heatbeat_errors", IfaceField.TxHeartBeatErr),
  ("tx_packets", IfaceField.TxPckt),
  ("tx_window_errors", IfaceField.TxWindowErr)
]

/-- Rust `IfaceField::from_str` (generated by `make_option!`): lowercase the input, match the arms in order. -/
def IfaceField.fromStr : String → Except String IfaceField := parseWith IfaceField.registry

/-- Tags of `NetworkField`, one per entry of the `make_option!(NetworkField ...)` block in command.rs. -/
inductive NetworkField where
  | Timestamp
  | Datetime
  | Ip
  | Ip6
  | Icmp
  | Icmp6
  | ForwPkts
  | InRecvPkts
  | ForwDgrm
  | InDiscards
  | InDelivers
  | OutRequests
  | OutDiscards
  | OutNoRoutes
  | InMcast
  | OutMcast
  | InBcast
  | OutBcast
  | InRecvPkts6
  | ForwDgrm6
  | InDiscards6
  | InDelivers6
  | OutRequests6
  | InNoRoutes6
  | OutNoRoutes6
  | InHdrErr6
  | InAddrErr6
  | InMcast6
  | OutMcast6
  | InBcast6
  | OutBcast6
  | InMsg
  | InErrs
  | InDestUnreachs
  | OutMsg
  | OutErrs
  | OutDestUnreachs
  | InMsg6
  | InErrs6
  | InDestUnreachs6
  | OutMsg6
  | OutErrs6
  | OutDestUnreachs6
deriving DecidableEq

/-- The ordered pattern→tag arms of `NetworkField::from_str`, exactly as written in the source. -/
def NetworkField.registry : List (String × NetworkField) := [
  ("timestamp", NetworkField.Timestamp),
  ("datetime", NetworkField.Datetime),
  ("ip", NetworkField.Ip),
  ("ip6", NetworkField.Ip6),
  ("icmp", NetworkField.Icmp),
  ("Icmp6", NetworkField.Icmp6),
  ("ip_forwarding", NetworkField.ForwPkts),
  ("ip_in_receives", NetworkField.InRecvPkts),
  ("ip_forw_datagrams", NetworkField.ForwDgrm),
  ("ip_in_discards", NetworkField.InDiscards),
  ("ip_in_delivers", NetworkField.InDelivers),
  ("ip_out_requests", NetworkField.OutRequests),
  ("ip_out_discards", NetworkField.OutDiscards),
  ("ip_out_no_routes", NetworkField.OutNoRoutes),
  ("ip_in_mcast", NetworkField.InMcast),
  ("ip_out_mcast", NetworkField.OutMcast),
  ("ip_in_bcast", NetworkField.InBcast),
  ("ip_out_bcast", NetworkField.OutBcast),
  ("ip6_in_receives", NetworkField.InRecvPkts6),
  ("ip6_forw_datagrams", NetworkField.ForwDgrm6),
  ("ip6_in_discards", NetworkField.InDiscards6),
  ("ip6_in_delivers", NetworkField.InDelivers6),
  ("ip6_out_requests", NetworkField.OutRequests6),
  ("ip6_in_no_routes", NetworkField.InNoRoutes6),
  ("ip6_out_no_routes", NetworkField.OutNoRoutes6),
  ("ip6_in_hdr_err", NetworkField.InHdrErr6),
  ("ip6_in_addr_err", NetworkField.InAddrErr6),
  ("ip6_in_mcast", NetworkField.InMcast6),
  ("ip6_out_mcast", NetworkField.OutMcast6),
  ("ip6_in_bcast", NetworkField.InBcast6),
  ("ip6_out_bcast", NetworkField.OutBcast6),
  ("icmp_in_msgs", NetworkField.InMsg),
  ("icmp_in_errs", NetworkField.InErrs),
  ("icmp_in_dest_unreachs", NetworkField.InDestUnreachs),
  ("icmp_out_msg", NetworkField.OutMsg),
  ("icmp_out_errs", NetworkField.OutErrs),
  ("icmp_out_dest_unreachs", NetworkField.OutDestUnreachs),
  ("icmp6_in_msgs", NetworkField.InMsg6),
  ("icmp6_in_errs", NetworkField.InErrs6),
  ("icmp6_in_dest_unreachs", NetworkField.InDestUnreachs6),
  ("icmp6_out_msg", NetworkField.OutMsg6),
  ("icmp6_out_errs", NetworkField.OutErrs6),
  ("icmp6_out_dest_unreachs", NetworkField.OutDestUnreachs6)
]

/-- Rust `NetworkField::from_str` (generated by `make_option!`): lowercase the input, match the arms in order. -/
def NetworkField.fromStr : String → Except String NetworkField := parseWith NetworkField.registry

/-- Tags of `TransportField`, one per entry of the `make_option!(TransportField ...)` block in command.rs. -/
inductive TransportField where
  | Timestamp
  | Datetime
  | Tcp
  | Udp
  | Udp6
  | ActiveOpens
  | PassiveOpens
  | AttemptFailed
  | EstabReset
  | CurrEstab
  | InSegs
  | OutSegs
  | RetransSegsPS
  | RetransSegs
  | TcpInErrs
  | OutRsts
  | InCsumErrs
  | InDgrms
  | NoPorts
  | UdpInErrs
  | OutDgrms
  | RecvBufErrs
  | SndBufErrs
  | IgnoredMulti
  | InDgrms6
  | NoPorts6
  | UdpInErrs6
  | OutDgrms6
  | RecvBufErrs6
  | SndBufErrs6
  | InCsumErrs6
  | IgnoredMulti6
deriving DecidableEq

/-- The ordered pattern→tag arms of `TransportField::from_str`, exactly as written in the source. -/
def TransportField.registry : List (String × TransportField) := [
  ("timestamp", TransportField.Timestamp),
  ("datetime", TransportField.Datetime),
  ("tcp", TransportField.Tcp),
  ("udp", TransportField.Udp),
  ("udp6", TransportField.Udp6),
  ("tcp_active_opens", TransportField.ActiveOpens),
  ("tcp_passive_opens", TransportField.PassiveOpens),
  ("tcp_attempt_fails", TransportField.AttemptFailed),
  ("tcp_estab_reset", TransportField.EstabReset),
  ("tcp_curr_estab", TransportField.CurrEstab),
  ("tcp_in_segs", TransportField.InSegs),
  ("tcp_out_segs", TransportField.OutSegs),
  ("tcp_retrans_segs_per_sec", TransportField.RetransSegsPS),
  ("tcp_retrans_segs", TransportField.RetransSegs),
  ("tcp_in_errs", TransportField.TcpInErrs),
  ("tcp_out_rsts", TransportField.OutRsts),
  ("tcp_in_csum_errs", TransportField.InCsumErrs),
  ("udp_in_datagrams", TransportField.InDgrms),
  ("udp_no_ports", TransportField.NoPorts),
  ("udp_in_errs", TransportField.UdpInErrs),
  ("udp_out_datagrams", TransportField.OutDgrms),
  ("udp_recv_buf_errs", TransportField.RecvBufErrs),
  ("udp_snd_buf_errs", TransportField.SndBufErrs),
  ("udp_ignored_multi", TransportField.IgnoredMulti),
  ("udp6_in_datagrams", TransportField.InDgrms6),
  ("udp6_no_ports", TransportField.NoPorts6),
  ("udp6_in_errs", TransportField.UdpInErrs6),
  ("udp6_out_datagrams", TransportField.OutDgrms6),
  ("udp6_recv_buf_errs", TransportField.RecvBufErrs6),
  ("udp6_snd_buf_errs", TransportField.SndBufErrs6),
  ("udp6_in_csum_errs", TransportField.InCsumErrs6),
  ("udp6_ignored_multi", TransportField.IgnoredMulti6)
]

/-- Rust `TransportField::from_str` (generated by `make_option!`): lowercase the input, match the arms in order. -/
def TransportField.fromStr : String → Except String TransportField := parseWith TransportField.registry

/-- Tags of `OutputFormat`, one per entry of the `make_option!(OutputFormat ...)` block in command.rs. -/
inductive OutputFormat where
  | Raw
  | Csv
  | Json
  | KeyVal
deriving DecidableEq

/-- The ordered pattern→tag arms of `OutputFormat::from_str`, exactly as written in the source. -/
def OutputFormat.registry : List (String × OutputFormat) := [
  ("raw", OutputFormat.Raw),
  ("csv", OutputFormat.Csv),
  ("json", OutputFormat.Json),
  ("kv", OutputFormat.KeyVal)
]

/-- Rust `OutputFormat::from_str` (generated by `make_option!`): lowercase the input, match the arms in order. -/
def OutputFormat.fromStr : String → Except String OutputFormat := parseWith OutputFormat.registry

/-- A compiled regular expression (the `regex::Regex` stored in
`GeneralOpt::filter`).  The crate itself is outside this source slice, so a
compiled regex is represented abstractly by its source pattern; which
pattern strings compile is abstracted by a `compile` function in the
theorems that use it. -/
structure Regex where
  pattern : String
deriving DecidableEq

/-- The `GeneralOpt` struct of command.rs: the flags shared by every dump
subcommand.  `end` is renamed `end_` (a Lean keyword); `top : u32` and
`repeat_title : usize` are modelled as `Nat` (no arithmetic is performed on
them here). -/
structure GeneralOpt where
  default : Bool
  everything : Bool
  detail : Bool
  begin : String
  end_ : Option String
  filter : Option Regex
  sort : Bool
  rsort : Bool
  top : Nat
  repeat_title : Option Nat
  output_format : Option OutputFormat
  output : Option String
  disable_title : Bool

/-- The `DumpCommand` enum of command.rs: one variant per domain.  `System`
has no `select` payload; the six per-row variants each carry
`select : Option<domain field>`. -/
inductive DumpCommand where
  | System (fields : Option (List SysField)) (opts : GeneralOpt)
  | Disk (fields : Option (List DiskField)) (opts : GeneralOpt)
      (select : Option DiskField)
  | Process (fields : Option (List ProcField)) (opts : GeneralOpt)
      (select : Option ProcField)
  | Cgroup (fields : Option (List CgroupField)) (opts : GeneralOpt)
      (select : Option CgroupField)
  | Iface (fields : Option (List IfaceField)) (opts : GeneralOpt)
      (select : Option IfaceField)
  | Network (fields : Option (List NetworkField)) (opts : GeneralOpt)
      (select : Option NetworkField)
  | Transport (fields : Option (List TransportField)) (opts : GeneralOpt)
      (select : Option TransportField)

/-- A domain-tagged select field, for stating facts about the `select`
payloads of `DumpCommand` uniformly. -/
inductive SelectTag where
  | disk (f : DiskField)
  | process (f : ProcField)
  | cgroup (f : CgroupField)
  | iface (f : IfaceField)
  | network (f : NetworkField)
  | transport (f : TransportField)

/-- The `select` payload carried by a dump command, if any. -/
def DumpCommand.selectOf : DumpCommand → Option SelectTag
  | .System _ _ => none
  | .Disk _ _ s => s.map SelectTag.disk
  | .Process _ _ s => s.map SelectTag.process
  | .Cgroup _ _ s => s.map SelectTag.cgroup
  | .Iface _ _ s => s.map SelectTag.iface
  | .Network _ _ s => s.map SelectTag.network
  | .Transport _ _ s => s.map SelectTag.transport

/-- Selection/validation errors of the dump pipeline (spec §7). -/
inductive SelectionError where
  | UnknownField (name : String)
  | ConflictingFlags
deriving DecidableEq

/-- Modelled from the spec: a `GroupSpec` of §3 — a named bundle of fields;
`members` are shown under default/bare group selection, `detailMembers` are
additionally shown under `--detail`.  The group tables themselves live in
the dfill implementations outside this source slice. -/
structure GroupSpec where
  name : String
  members : List String
  detailMembers : List String

/-- Modelled from the spec: a Domain Registry of §3 — the ordered field
names plus the group specs of one domain. -/
structure DomainRegistryM where
  fields : List String
  groups : List GroupSpec

/-- Modelled from the spec: a `SelectionRequest` of §3. -/
structure SelectionRequest where
  explicitFields : Option (List String)
  defaultFlag : Bool
  everythingFlag : Bool
  detailFlag : Bool

/-- Deduplicate keeping the first occurrence, order preserved (spec §3,
ResolvedFieldList). -/
def dedupKeepFirst (l : List String) : List String :=
  l.foldl (fun acc x => if x ∈ acc then acc else acc ++ [x]) []

/-- Modelled from the spec: expansion of one requested name (§4.2 step 3) —
look the name up as a field first, else as a group (members plus
`detailMembers` when `--detail`), else `UnknownField`. -/
def expandName (reg : DomainRegistryM) (detail : Bool) (n : String) :
    Except SelectionError (List String) :=
  if n ∈ reg.fields then Except.ok [n]
  else
    match reg.groups.find? (fun g => g.name = n) with
    | some g =>
        Except.ok (g.members ++ if detail then g.detailMembers else [])
    | none => Except.error (SelectionError.UnknownField n)

/-- Modelled from the spec: the Selection Resolver of §4.2 (the dfill trait
implementation is outside this source slice).  `--everything` takes the
whole registry ignoring everything else; else `--default` takes each
group's members (plus detail members under `--detail`); else the explicit
field list is expanded name by name; finally duplicates are removed keeping
the first occurrence. -/
def resolve (reg : DomainRegistryM) (req : SelectionRequest) :
    Except SelectionError (List String) :=
  if req.everythingFlag then Except.ok (dedupKeepFirst reg.fields)
  else if req.defaultFlag then
    Except.ok (dedupKeepFirst (reg.groups.foldr
      (fun g acc =>
        g.members ++ (if req.detailFlag then g.detailMembers else []) ++ acc)
      []))
  else do
    let expanded ← (req.explicitFields.getD []).foldlM
      (fun acc n => do
        let e ← expandName reg req.detailFlag n
        pure (acc ++ e))
      []
    pure (dedupKeepFirst expanded)

/-- Modelled from the spec: flag validation of §7 — `--sort` together with
`--rsort` is `SelectionError::ConflictingFlags`, surfaced before any slice
is processed (the check itself lives outside this source slice). -/
def GeneralOpt.validateFlags (o : GeneralOpt) : Except SelectionError Unit :=
  if o.sort && o.rsort then Except.error SelectionError.ConflictingFlags
  else Except.ok ()

/-- Modelled from the spec: construction-time parsing of the `--filter`
argument (structopt parses the argument through `Regex::from_str`, outside
this source slice).  `compile` abstracts the regex crate's compiler; an
invalid pattern is rejected when the request is constructed. -/
def parseFilter (compile : String → Option Regex) :
    Option String → Except String (Option Regex)
  | none => Except.ok none
  | some p =>
      match compile p with
      | some r => Except.ok (some r)
      | none => Except.error ("invalid regex: " ++ p)

/-! ## Lemmas about lowercasing and the generated `from_str` -/

theorem toNat_ofNat_valid {n : Nat} (h : n < 55296) :
    (Char.ofNat n).toNat = n := by
  have hv : n.isValidChar := Or.inl h
  unfold Char.ofNat
  rw [dif_pos hv]
  rfl

theorem lowerChar_idem (c : Char) : lowerChar (lowerChar c) = lowerChar c := by
  by_cases h : 65 ≤ c.toNat ∧ c.toNat ≤ 90
  · have hval : (Char.ofNat (c.toNat + 32)).toNat = c.toNat + 32 :=
      toNat_ofNat_valid (by omega)
    unfold lowerChar
    rw [if_pos h, if_neg]
    rw [hval]
    omega
  · unfold lowerChar
    rw [if_neg h, if_neg h]

theorem lowerChar_not_upper (c : Char) :
    ¬(65 ≤ (lowerChar c).toNat ∧ (lowerChar c).toNat ≤ 90) := by
  by_cases h : 65 ≤ c.toNat ∧ c.toNat ≤ 90
  · unfold lowerChar
    rw [if_pos h, toNat_ofNat_valid (by omega)]
    omega
  · unfold lowerChar
    rw [if_neg h]
    exact h

theorem lowerString_idem (s : String) :
    lowerString (lowerString s) = lowerString s := by
  show (⟨(s.data.map lowerChar).map lowerChar⟩ : String) = ⟨s.data.map lowerChar⟩
  congr 1
  induction s.data with
  | nil => rfl
  | cons c l ih => simp [List.map, lowerChar_idem, ih]

theorem parseWith_ok_iff {α : Type} (reg : List (String × α)) (s : String)
    (a : α) :
    parseWith reg s = Except.ok a ↔ matchFirst reg (lowerString s) = some a := by
  unfold parseWith
  cases h : matchFirst reg (lowerString s) <;> simp [h]

theorem parseWith_lower {α : Type} (reg : List (String × α)) (s : String)
    (a : α) :
    parseWith reg (lowerString s) = Except.ok a ↔
      parseWith reg s = Except.ok a := by
  rw [parseWith_ok_iff, parseWith_ok_iff, lowerString_idem]

theorem parseWith_toOption_lower {α : Type} (reg : List (String × α))
    (s : String) :
    (parseWith reg s).toOption = (parseWith reg (lowerString s)).toOption := by
  simp only [parseWith, lowerString_idem]
  cases matchFirst reg (lowerString s) <;> rfl

theorem matchFirst_eq_none {α : Type} (reg : List (String × α)) (s : String)
    (h : ∀ p ∈ reg, s ≠ p.1) : matchFirst reg s = none := by
  induction reg with
  | nil => rfl
  | cons p rest ih =>
      have hne : s ≠ p.1 := h p (List.mem_cons_self p rest)
      show (if s = p.1 then some p.2 else matchFirst rest s) = none
      rw [if_neg hne]
      exact ih (fun q hq => h q (List.mem_cons_of_mem p hq))

theorem matchFirst_mem {α : Type} (reg : List (String × α)) (s : String)
    (a : α) (h : matchFirst reg s = some a) : (s, a) ∈ reg := by
  induction reg with
  | nil => exact absurd h (by simp [matchFirst])
  | cons p rest ih =>
      rw [show matchFirst (p :: rest) s
            = if s = p.1 then some p.2 else matchFirst rest s from rfl] at h
      by_cases he : s = p.1
      · rw [if_pos he] at h
        cases h
        subst he
        exact List.mem_cons_self _ _
      · rw [if_neg he] at h
        exact List.mem_cons_of_mem p (ih h)

theorem parseWith_unknown {α : Type} (reg : List (String × α)) (s : String)
    (h : ∀ p ∈ reg, lowerString s ≠ lowerString p.1) :
    parseWith reg s = Except.error ("Fail to parse " ++ s) := by
  have h2 : ∀ p ∈ reg, lowerString s ≠ p.1 := by
    intro p hp heq
    exact h p hp (by rw [← heq, lowerString_idem])
  unfold parseWith
  rw [matchFirst_eq_none reg (lowerString s) h2]

/-- No string lowercases to `"Icmp6"`: lowercasing never produces an
uppercase ASCII letter, and `'I'` is one. -/
theorem lowerString_ne_Icmp6 (s : String) : lowerString s ≠ "Icmp6" := by
  intro h
  have hd : s.data.map lowerChar = "Icmp6".data := congrArg String.data h
  have hmem : 'I' ∈ s.data.map lowerChar := by
    rw [hd]
    decide
  obtain ⟨c, _, hc⟩ := List.mem_map.mp hmem
  have hno := lowerChar_not_upper c
  rw [hc] at hno
  exact hno (by decide)

/-- The `NetworkField::Icmp6` match arm is dead code: since `from_str`
lowercases its input before matching and the registered pattern `"Icmp6"`
contains an uppercase `I`, no input string whatsoever parses to the
`Icmp6` tag. -/
theorem icmp6_tag_unreachable (s : String) :
    NetworkField.fromStr s ≠ Except.ok NetworkField.Icmp6 := by
  intro hok
  have hm := (parseWith_ok_iff NetworkField.registry s NetworkField.Icmp6).mp hok
  have hmem := matchFirst_mem _ _ _ hm
  simp only [NetworkField.registry, List.mem_cons, Prod.mk.injEq,
    List.not_mem_nil, or_false] at hmem
  rcases hmem with h | h
  all_goals first
    | exact lowerString_ne_Icmp6 s h.1
    | exact absurd h.2 (by decide)
    | skip
  repeat
    rcases h with h | h
    all_goals first
      | exact lowerString_ne_Icmp6 s h.1
      | exact absurd h.2 (by decide)
      | skip

/-! ## The claims -/

/-- C1: the claim says every registered group name — explicitly including
the Network domain's `icmp6` group — is accepted by the domain's name
lookup and resolves.  The code violates this: the `make_option!` arm for
the `Icmp6` tag registers the pattern string `"Icmp6"` with an uppercase
`I`, while `from_str` lowercases the input before matching, so both the
spellings `"icmp6"` and `"Icmp6"` are rejected with a parse error (and, by
`icmp6_tag_unreachable`, the tag is unreachable from any input), although
the command's own doc comment lists `icmp6` among the aggregated fields
and inside `--default`.  This theorem evaluates the code at the failing
input. -/
theorem icmp6_group_rejected :
    ("Icmp6", NetworkField.Icmp6) ∈ NetworkField.registry ∧
    NetworkField.fromStr "icmp6" = Except.error "Fail to parse icmp6" ∧
    NetworkField.fromStr "Icmp6" = Except.error "Fail to parse Icmp6" :=
  ⟨by decide, by decide, by decide⟩

/-- C2: for every domain registry (the seven field enums and the
output-format enum) and every input string `s`, lookup is
case-insensitive: parsing `s` and parsing the lowercase form of `s` give
the same outcome — the same tag on success, failure on both otherwise
(`Except.toOption` identifies the two, as the `anyhow` error payloads of
the source are not comparable values). -/
theorem case_insensitive_lookup (s : String) :
    (SysField.fromStr s).toOption
        = (SysField.fromStr (lowerString s)).toOption ∧
    (DiskField.fromStr s).toOption
        = (DiskField.fromStr (lowerString s)).toOption ∧
    (ProcField.fromStr s).toOption
        = (ProcField.fromStr (lowerString s)).toOption ∧
    (CgroupField.fromStr s).toOption
        = (CgroupField.fromStr (lowerString s)).toOption ∧
    (IfaceField.fromStr s).toOption
        = (IfaceField.fromStr (lowerString s)).toOption ∧
    (NetworkField.fromStr s).toOption
        = (NetworkField.fromStr (lowerString s)).toOption ∧
    (TransportField.fromStr s).toOption
        = (TransportField.fromStr (lowerString s)).toOption ∧
    (OutputFormat.fromStr s).toOption
        = (OutputFormat.fromStr (lowerString s)).toOption :=
 by
  refine ⟨?_, ?_, ?_, ?_, ?_, ?_, ?_, ?_⟩ <;>
    exact parseWith_toOption_lower _ s

/-- C3: in every domain, an input string that is not case-insensitively
equal to any registered name fails to parse, with an error that names the
offending input (`Fail to parse {opt}`); it never succeeds and is never
silently dropped. -/
theorem unknown_name_always_fails :
    (∀ s : String, (∀ p ∈ SysField.registry, lowerString s ≠ lowerString p.1) →
      SysField.fromStr s = Except.error ("Fail to parse " ++ s)) ∧
    (∀ s : String, (∀ p ∈ DiskField.registry, lowerString s ≠ lowerString p.1) →
      DiskField.fromStr s = Except.error ("Fail to parse " ++ s)) ∧
    (∀ s : String, (∀ p ∈ ProcField.registry, lowerString s ≠ lowerString p.1) →
      ProcField.fromStr s = Except.error ("Fail to parse " ++ s)) ∧
    (∀ s : String,
      (∀ p ∈ CgroupField.registry, lowerString s ≠ lowerString p.1) →
      CgroupField.fromStr s = Except.error ("Fail to parse " ++ s)) ∧
    (∀ s : String,
      (∀ p ∈ IfaceField.registry, lowerString s ≠ lowerString p.1) →
      IfaceField.fromStr s = Except.error ("Fail to parse " ++ s)) ∧
    (∀ s : String,
      (∀ p ∈ NetworkField.registry, lowerString s ≠ lowerString p.1) →
      NetworkField.fromStr s = Except.error ("Fail to parse " ++ s)) ∧
    (∀ s : String,
      (∀ p ∈ TransportField.registry, lowerString s ≠ lowerString p.1) →
      TransportField.fromStr s = Except.error ("Fail to parse " ++ s)) := by
  refine ⟨?_, ?_, ?_, ?_, ?_, ?_, ?_⟩ <;>
    exact fun s h => parseWith_unknown _ s h

/-- C3, witness: the unknown name `"bogus"` is rejected by every domain
with the error naming it. -/
theorem unknown_name_always_fails_witness :
    SysField.fromStr "bogus" = Except.error "Fail to parse bogus" ∧
    DiskField.fromStr "bogus" = Except.error "Fail to parse bogus" ∧
    ProcField.fromStr "bogus" = Except.error "Fail to parse bogus" ∧
    CgroupField.fromStr "bogus" = Except.error "Fail to parse bogus" ∧
    IfaceField.fromStr "bogus" = Except.error "Fail to parse bogus" ∧
    NetworkField.fromStr "bogus" = Except.error "Fail to parse bogus" ∧
    TransportField.fromStr "bogus" = Except.error "Fail to parse bogus" :=
  ⟨unknown_name_always_fails.1 "bogus" (by decide),
   unknown_name_always_fails.2.1 "bogus" (by decide),
   unknown_name_always_fails.2.2.1 "bogus" (by decide),
   unknown_name_always_fails.2.2.2.1 "bogus" (by decide),
   unknown_name_always_fails.2.2.2.2.1 "bogus" (by decide),
   unknown_name_always_fails.2.2.2.2.2.1 "bogus" (by decide),
   unknown_name_always_fails.2.2.2.2.2.2 "bogus" (by decide)⟩

/-- C4: within each domain's registry the registered names, compared
case-insensitively, are pairwise distinct, and so are the tags they map
to: lookup is a well-defined injective function on the registered names. -/
theorem registry_names_unique :
    ((SysField.registry.map (fun p => lowerString p.1)).Nodup ∧
      (SysField.registry.map Prod.snd).Nodup) ∧
    ((DiskField.registry.map (fun p => lowerString p.1)).Nodup ∧
      (DiskField.registry.map Prod.snd).Nodup) ∧
    ((ProcField.registry.map (fun p => lowerString p.1)).Nodup ∧
      (ProcField.registry.map Prod.snd).Nodup) ∧
    ((CgroupField.registry.map (fun p => lowerString p.1)).Nodup ∧
      (CgroupField.registry.map Prod.snd).Nodup) ∧
    ((IfaceField.registry.map (fun p => lowerString p.1)).Nodup ∧
      (IfaceField.registry.map Prod.snd).Nodup) ∧
    ((NetworkField.registry.map (fun p => lowerString p.1)).Nodup ∧
      (NetworkField.registry.map Prod.snd).Nodup) ∧
    ((TransportField.registry.map (fun p => lowerString p.1)).Nodup ∧
      (TransportField.registry.map Prod.snd).Nodup) := by
  decide

/-- C5: parsing an output-format name succeeds exactly for the four
strings `raw`, `csv`, `json`, `kv` in any letter case, yielding `Raw`,
`Csv`, `Json`, `KeyVal` respectively; any other string is rejected with a
parse error. -/
theorem output_format_parse_exact (s : String) :
    OutputFormat.fromStr s =
      if lowerString s = "raw" then Except.ok OutputFormat.Raw
      else if lowerString s = "csv" then Except.ok OutputFormat.Csv
      else if lowerString s = "json" then Except.ok OutputFormat.Json
      else if lowerString s = "kv" then Except.ok OutputFormat.KeyVal
      else Except.error ("Fail to parse " ++ s) := by
  show parseWith OutputFormat.registry s = _
  simp only [parseWith, OutputFormat.registry, matchFirst]
  split_ifs <;> rfl

/-- C6: in the selection resolver, `everything` overrides both `default`
and the explicit field list, and `default` overrides the explicit field
list: the resolved result is independent of the overridden inputs, so
exactly one of the three sources determines the resolved field list. -/
theorem selection_flag_precedence (reg : DomainRegistryM)
    (fs : Option (List String)) (b d : Bool) :
    resolve reg ⟨fs, b, true, d⟩ = resolve reg ⟨none, false, true, d⟩ ∧
    resolve reg ⟨fs, true, false, d⟩ = resolve reg ⟨none, true, false, d⟩ := by
  constructor <;> simp [resolve]

/-- C7: a dump request with both `--sort` and `--rsort` set fails flag
validation with `SelectionError::ConflictingFlags`. -/
theorem sort_rsort_conflict (o : GeneralOpt) (hs : o.sort = true)
    (hr : o.rsort = true) :
    o.validateFlags = Except.error SelectionError.ConflictingFlags := by
  simp [GeneralOpt.validateFlags, hs, hr]

/-- C7, witness: a concrete option set with both sort flags on is
rejected with `ConflictingFlags`. -/
theorem sort_rsort_conflict_witness :
    (GeneralOpt.mk false false false "" none none true true 0 none none none
      false).validateFlags = Except.error SelectionError.ConflictingFlags :=
  sort_rsort_conflict _ rfl rfl

/-- C8: the filter option carries a compiled regular expression: a request
that constructs successfully carries only a regex the compiler accepted,
and an invalid pattern string is rejected when the request is constructed,
before any row is filtered (quantified over any regex compiler
`compile`). -/
theorem filter_compiled_at_construction (compile : String → Option Regex)
    (p : String) :
    (compile p = none →
      parseFilter compile (some p) = Except.error ("invalid regex: " ++ p)) ∧
    (∀ r, parseFilter compile (some p) = Except.ok (some r) →
      compile p = some r) ∧
    parseFilter compile none = Except.ok none := by
  refine ⟨?_, ?_, rfl⟩
  · intro h
    simp [parseFilter, h]
  · intro r h
    cases hc : compile p with
    | none => simp [parseFilter, hc] at h
    | some v =>
        simp [parseFilter, hc] at h
        rw [h]

/-- C8, witness: under a compiler that rejects the pattern `"("`, the
request construction fails on that pattern, and a pattern the compiler
accepts is carried through. -/
theorem filter_compiled_at_construction_witness :
    parseFilter (fun s => if s = "(" then none else some (Regex.mk s))
        (some "(") = Except.error "invalid regex: (" ∧
    (fun s => if s = "(" then none else some (Regex.mk s)) "ab" =
        some (Regex.mk "ab") :=
  ⟨(filter_compiled_at_construction
      (fun s => if s = "(" then none else some (Regex.mk s)) "(").1
      (by decide),
   (filter_compiled_at_construction
      (fun s => if s = "(" then none else some (Regex.mk s)) "ab").2.1
      (Regex.mk "ab") (by decide)⟩

/-- C9: the six per-row dump commands (Disk, Process, Cgroup, Iface,
Network, Transport) each carry an optional `select` field of their own
domain's field type, passed through unchanged, while the single-row
System command carries no `select` payload at all. -/
theorem select_payload_shape :
    (∀ f o, (DumpCommand.System f o).selectOf = none) ∧
    (∀ f o s, (DumpCommand.Disk f o s).selectOf = s.map SelectTag.disk) ∧
    (∀ f o s,
      (DumpCommand.Process f o s).selectOf = s.map SelectTag.process) ∧
    (∀ f o s, (DumpCommand.Cgroup f o s).selectOf = s.map SelectTag.cgroup) ∧
    (∀ f o s, (DumpCommand.Iface f o s).selectOf = s.map SelectTag.iface) ∧
    (∀ f o s,
      (DumpCommand.Network f o s).selectOf = s.map SelectTag.network) ∧
    (∀ f o s,
      (DumpCommand.Transport f o s).selectOf = s.map SelectTag.transport) := by
  refine ⟨?_, ?_, ?_, ?_, ?_, ?_, ?_⟩ <;> intros <;> rfl

/-- C10: every one of the seven domain registries registers `"timestamp"`
and `"datetime"` as its first two names, and in every domain those two
names parse to the `Timestamp` and `Datetime` tags. -/
theorem timestamp_datetime_first :
    (SysField.registry.take 2 =
        [("timestamp", SysField.Timestamp), ("datetime", SysField.Datetime)] ∧
      SysField.fromStr "timestamp" = Except.ok SysField.Timestamp ∧
      SysField.fromStr "datetime" = Except.ok SysField.Datetime) ∧
    (DiskField.registry.take 2 =
        [("timestamp", DiskField.Timestamp),
          ("datetime", DiskField.Datetime)] ∧
      DiskField.fromStr "timestamp" = Except.ok DiskField.Timestamp ∧
      DiskField.fromStr "datetime" = Except.ok DiskField.Datetime) ∧
    (ProcField.registry.take 2 =
        [("timestamp", ProcField.Timestamp),
          ("datetime", ProcField.Datetime)] ∧
      ProcField.fromStr "timestamp" = Except.ok ProcField.Timestamp ∧
      ProcField.fromStr "datetime" = Except.ok ProcField.Datetime) ∧
    (CgroupField.registry.take 2 =
        [("timestamp", CgroupField.Timestamp),
          ("datetime", CgroupField.Datetime)] ∧
      CgroupField.fromStr "timestamp" = Except.ok CgroupField.Timestamp ∧
      CgroupField.fromStr "datetime" = Except.ok CgroupField.Datetime) ∧
    (IfaceField.registry.take 2 =
        [("timestamp", IfaceField.Timestamp),
          ("datetime", IfaceField.Datetime)] ∧
      IfaceField.fromStr "timestamp" = Except.ok IfaceField.Timestamp ∧
      IfaceField.fromStr "datetime" = Except.ok IfaceField.Datetime) ∧
    (NetworkField.registry.take 2 =
        [("timestamp", NetworkField.Timestamp),
          ("datetime", NetworkField.Datetime)] ∧
      NetworkField.fromStr "timestamp" = Except.ok NetworkField.Timestamp ∧
      NetworkField.fromStr "datetime" = Except.ok NetworkField.Datetime) ∧
    (TransportField.registry.take 2 =
        [("timestamp", TransportField.Timestamp),
          ("datetime", TransportField.Datetime)] ∧
      TransportField.fromStr "timestamp" = Except.ok TransportField.Timestamp ∧
      TransportField.fromStr "datetime" = Except.ok TransportField.Datetime) := by
  decide

end Below
